import Mathlib

/-!
Verification of the `transcribe-cli` pipeline
(`src/transcribe-cli/src/main.rs`).

The program is a single-shot CLI: parse `--audio` and `--model` paths,
validate that both files exist (model first), load a Whisper model with
`use_gpu: true`, transcribe the audio with default inference parameters,
and emit a single-line JSON envelope: `{"text": ...}` on stdout with exit
status 0 on success, `{"error": ...}` on stderr with exit status 1 on any
failure.

The embedding below models:
- the filesystem as an existence predicate on paths (paths are strings;
  `PathBuf::display` of such a path is the string itself);
- the external `transcribe_rs` engine (out of scope per the spec, which
  gives only its contract) as a pair of fallible functions returning
  `Except String _`, the `String` being the displayed error message;
- `run` as a function that also records a trace of the pipeline events it
  performs (path checks, model load, transcription), so that claims of the
  form "X is never called" are statements about the trace;
- `main` as a function from the parsed arguments, the filesystem, the
  engine behaviour and the stderr I/O outcome to a process outcome
  (stdout lines, stderr lines, exit code);
- `serde_json::to_string` of the two one-field structs as an explicit
  character-level JSON serializer, together with a JSON string parser used
  to state round-trip properties of the envelope.
-/

namespace TranscribeCli

/-- Paths (`PathBuf`); `display` of a path is the string itself. -/
abbrev Path := String

/-- The parsed CLI arguments (struct `Args` in `main.rs`): the source
declares exactly two flags, `--audio <path>` and `--model <path>`, both
required, and no others. -/
structure Args where
  audio : Path
  model : Path
deriving DecidableEq, Repr

/-- `clap` parsing of the raw argument tokens for the declared `Args`
surface: `--audio <v>` and `--model <v>`, each exactly once, no other
tokens accepted (clap rejects unknown flags), both required.
`none` models a parse error (clap reports usage and exits). -/
def parseArgsAux : List String → Option Path → Option Path → Option Args
  | [], some a, some m => some ⟨a, m⟩
  | [], _, _ => none
  | "--audio" :: v :: rest, none, m => parseArgsAux rest (some v) m
  | "--model" :: v :: rest, a, none => parseArgsAux rest a (some v)
  | _, _, _ => none

/-- `Args::parse()` on the raw token list (program name already stripped). -/
def parseArgs (toks : List String) : Option Args :=
  parseArgsAux toks none none

/-- Model-load parameters of the Whisper engine (external crate; the spec
gives the contract: `{ use_gpu: bool }`). -/
structure WhisperModelParams where
  use_gpu : Bool
deriving DecidableEq, Repr

/-- Inference parameters of the Whisper engine. Modelled from the spec:
the `transcribe_rs` crate is an external collaborator whose source is not
part of this repository; per the spec its `InferenceParams` carry
`{ language: optional string }`, absent meaning auto-detect. -/
structure WhisperInferenceParams where
  language : Option String
deriving DecidableEq, Repr

/-- `WhisperInferenceParams::default()`: language absent (auto-detect). -/
def WhisperInferenceParams.default : WhisperInferenceParams := ⟨none⟩

/-- The engine's transcription result (`TranscriptionResult { text }`). -/
structure TranscribeResult where
  text : String
deriving DecidableEq, Repr

/-- Filesystem state: which paths exist (`Path::exists`). -/
structure FS where
  pathExists : Path → Bool

/-- Behaviour of the external Whisper engine for one invocation:
`load_model_with_params` and `transcribe_file`, both fallible with a
displayable error (modelled as the displayed message string). -/
structure Engine where
  load : Path → WhisperModelParams → Except String Unit
  transcribeFile : Path → Option WhisperInferenceParams → Except String TranscribeResult

/-- Observable pipeline events of one `run`, in order: the two distinct
existence checks (two distinct call sites in the source), the model load,
and the transcription call. -/
inductive Event where
  | checkModel (p : Path)
  | checkAudio (p : Path)
  | loadModel (p : Path) (mp : WhisperModelParams)
  | transcribe (p : Path) (ip : Option WhisperInferenceParams)
deriving DecidableEq, Repr

/-- Is the event a `load_model_with_params` call? -/
def Event.isLoad : Event → Bool
  | .loadModel _ _ => true
  | _ => false

/-- Is the event a `transcribe_file` call? -/
def Event.isTrans : Event → Bool
  | .transcribe _ _ => true
  | _ => false

/-- Is the event the audio existence check? -/
def Event.isCheckAudio : Event → Bool
  | .checkAudio _ => true
  | _ => false

/-- `fn run(args) -> Result<String, Box<dyn Error>>`, instrumented with
the trace of pipeline events it performs. Mirrors the source line by
line: check `args.model.exists()` (else `"Model file not found: <path>"`),
then `args.audio.exists()` (else `"Audio file not found: <path>"`), then
`engine.load_model_with_params(&args.model, WhisperModelParams { use_gpu:
true })?`, then `engine.transcribe_file(&args.audio,
Some(WhisperInferenceParams::default()))?`, returning `result.text`. -/
def runT (args : Args) (fs : FS) (eng : Engine) :
    Except String String × List Event :=
  let t0 := [Event.checkModel args.model]
  if fs.pathExists args.model = false then
    (.error ("Model file not found: " ++ args.model), t0)
  else
    let t1 := t0 ++ [Event.checkAudio args.audio]
    if fs.pathExists args.audio = false then
      (.error ("Audio file not found: " ++ args.audio), t1)
    else
      let mp : WhisperModelParams := ⟨true⟩
      let t2 := t1 ++ [Event.loadModel args.model mp]
      match eng.load args.model mp with
      | .error e => (.error e, t2)
      | .ok _ =>
        let ip := some WhisperInferenceParams.default
        let t3 := t2 ++ [Event.transcribe args.audio ip]
        match eng.transcribeFile args.audio ip with
        | .error e => (.error e, t3)
        | .ok r => (.ok r.text, t3)

/-- The value `run` returns (the trace projected away). -/
def run (args : Args) (fs : FS) (eng : Engine) : Except String String :=
  (runT args fs eng).1

/-- Hex digit character for `n < 16`, lowercase (as `serde_json` emits
in `\u00XX` escapes). -/
def hexDigit (n : Nat) : Char :=
  if n < 10 then Char.ofNat (48 + n) else Char.ofNat (87 + n)

/-- Value of a hex digit character, `none` if not a hex digit. -/
def hexVal (c : Char) : Option Nat :=
  if 48 ≤ c.toNat ∧ c.toNat ≤ 57 then some (c.toNat - 48)
  else if 97 ≤ c.toNat ∧ c.toNat ≤ 102 then some (c.toNat - 87)
  else if 65 ≤ c.toNat ∧ c.toNat ≤ 70 then some (c.toNat - 55)
  else none

/-- `serde_json` escaping of one character inside a JSON string: `"` and
`\` get a backslash escape, the five named control characters get their
short escapes, the remaining control characters (< 0x20) become `\u00XX`,
everything else is emitted verbatim. -/
def escChar (c : Char) : List Char :=
  if c = '"' then ['\\', '"']
  else if c = '\\' then ['\\', '\\']
  else if c = '\x08' then ['\\', 'b']
  else if c = '\x09' then ['\\', 't']
  else if c = '\x0a' then ['\\', 'n']
  else if c = '\x0c' then ['\\', 'f']
  else if c = '\x0d' then ['\\', 'r']
  else if c.toNat < 32 then
    ['\\', 'u', '0', '0', hexDigit (c.toNat / 16), hexDigit (c.toNat % 16)]
  else [c]

/-- Escape a whole character sequence. -/
def escList : List Char → List Char
  | [] => []
  | c :: l => escChar c ++ escList l

/-- A serialized JSON string: opening quote, escaped content, closing
quote. -/
def jsonStringChars (l : List Char) : List Char :=
  '"' :: (escList l ++ ['"'])

/-- `serde_json::to_string(&SuccessOutput { text })`: the single-line
JSON object with single key `text`. -/
def successJson (t : String) : String :=
  String.mk ('\x7b' :: '"' :: 't' :: 'e' :: 'x' :: 't' :: '"' :: ':' ::
    (jsonStringChars t.data ++ ['\x7d']))

/-- `serde_json::to_string(&ErrorOutput { error })`: the single-line
JSON object with single key `error`. -/
def errorJson (m : String) : String :=
  String.mk ('\x7b' :: '"' :: 'e' :: 'r' :: 'r' :: 'o' :: 'r' :: '"' :: ':' ::
    (jsonStringChars m.data ++ ['\x7d']))

/-- Parse the body of a JSON string after the opening quote: returns the
unescaped content and the characters after the closing quote. Rejects
unterminated strings, unknown escapes and raw control characters. -/
def unesc : List Char → Option (List Char × List Char)
  | [] => none
  | c :: rest =>
    if c = '"' then some ([], rest)
    else if c = '\\' then
      match rest with
      | [] => none
      | e :: rest2 =>
        if e = '"' then (unesc rest2).map (fun p => ('"' :: p.1, p.2))
        else if e = '\\' then (unesc rest2).map (fun p => ('\\' :: p.1, p.2))
        else if e = 'b' then (unesc rest2).map (fun p => ('\x08' :: p.1, p.2))
        else if e = 't' then (unesc rest2).map (fun p => ('\x09' :: p.1, p.2))
        else if e = 'n' then (unesc rest2).map (fun p => ('\x0a' :: p.1, p.2))
        else if e = 'f' then (unesc rest2).map (fun p => ('\x0c' :: p.1, p.2))
        else if e = 'r' then (unesc rest2).map (fun p => ('\x0d' :: p.1, p.2))
        else if e = 'u' then
          match rest2 with
          | a :: b :: c2 :: d :: rest3 =>
            match hexVal a, hexVal b, hexVal c2, hexVal d with
            | some ha, some hb, some hc, some hd =>
              (unesc rest3).map
                (fun p => (Char.ofNat (((ha * 16 + hb) * 16 + hc) * 16 + hd) :: p.1, p.2))
            | _, _, _, _ => none
          | _ => none
        else none
    else if c.toNat < 32 then none
    else (unesc rest).map (fun p => (c :: p.1, p.2))
termination_by l => l.length
decreasing_by all_goals simp_wf <;> omega

/-- Parse a single-line JSON object holding exactly one key-value pair
whose value is a string: `\x7b"<key>":"<value>"\x7d`. Returns the
unescaped key and value. Anything else (no pair, a second pair, trailing
characters) is rejected. -/
def parseObj1 (s : String) : Option (String × String) :=
  match s.data with
  | '\x7b' :: '"' :: rest =>
    match unesc rest with
    | some (key, ':' :: '"' :: rest2) =>
      match unesc rest2 with
      | some (v, ['\x7d']) => some (String.mk key, String.mk v)
      | _ => none
    | _ => none
  | _ => none

/-- Parse a one-line envelope: an object whose single key is `text` or
`error` with a JSON string value. Yields `Sum.inl` the text on the
success shape, `Sum.inr` the message on the error shape. -/
def parseEnvelope (s : String) : Option (String ⊕ String) :=
  match parseObj1 s with
  | some (k, v) =>
    if k = "text" then some (Sum.inl v)
    else if k = "error" then some (Sum.inr v)
    else none
  | none => none

/-- The outcome of the stderr `writeln!` and `flush` calls in `main`
(both fallible; the source discards both results with `let _ = ...`). -/
structure StderrIO where
  writeOk : Bool
  flushOk : Bool

/-- Observable outcome of one process run: the lines written to stdout,
the lines handed to stderr, and the exit status. -/
structure ProcOutcome where
  stdout : List String
  stderr : List String
  exitCode : Nat
deriving DecidableEq, Repr

/-- `fn main()` after argument parsing: on `Ok(text)`, `println!` the
serialized `SuccessOutput` (exit status 0 by falling off `main`); on
`Err(e)`, serialize `ErrorOutput { error: e.to_string() }`, write it to
stderr with `writeln!` and `flush` (both results discarded), and
`process::exit(1)`. -/
def mainRun (args : Args) (fs : FS) (eng : Engine) (io : StderrIO) :
    ProcOutcome :=
  match run args fs eng with
  | .ok text =>
    { stdout := [successJson text], stderr := [], exitCode := 0 }
  | .error e =>
    let json := errorJson e
    let _ := io.writeOk
    let _ := io.flushOk
    { stdout := [], stderr := [json], exitCode := 1 }


/-! ## JSON round-trip lemmas -/

/-- `String.mk` and `String.data` are inverses (definitional). -/
theorem mk_data (s : String) : String.mk s.data = s := rfl

/-- Data of a literal `String.mk` (definitional). -/
theorem data_mk (l : List Char) : (String.mk l).data = l := rfl

/-- `hexVal` inverts `hexDigit` on digits below 16. -/
theorem hexVal_hexDigit : ∀ n, n < 16 → hexVal (hexDigit n) = some n := by
  decide

/-- `unesc` at a closing quote. -/
theorem unesc_quote (rest : List Char) : unesc ('"' :: rest) = some ([], rest) := by
  conv_lhs => rw [unesc.eq_def]
  simp

/-- `unesc` at an escaped quote. -/
theorem unesc_esc_quote (rest : List Char) :
    unesc ('\\' :: '"' :: rest) = (unesc rest).map (fun p => ('"' :: p.1, p.2)) := by
  conv_lhs => rw [unesc.eq_def]
  simp

/-- `unesc` at an escaped backslash. -/
theorem unesc_esc_bs (rest : List Char) :
    unesc ('\\' :: '\\' :: rest) = (unesc rest).map (fun p => ('\\' :: p.1, p.2)) := by
  conv_lhs => rw [unesc.eq_def]
  simp

/-- `unesc` at an escaped backspace. -/
theorem unesc_esc_b (rest : List Char) :
    unesc ('\\' :: 'b' :: rest) = (unesc rest).map (fun p => ('\x08' :: p.1, p.2)) := by
  conv_lhs => rw [unesc.eq_def]
  simp

/-- `unesc` at an escaped tab. -/
theorem unesc_esc_t (rest : List Char) :
    unesc ('\\' :: 't' :: rest) = (unesc rest).map (fun p => ('\x09' :: p.1, p.2)) := by
  conv_lhs => rw [unesc.eq_def]
  simp

/-- `unesc` at an escaped newline. -/
theorem unesc_esc_n (rest : List Char) :
    unesc ('\\' :: 'n' :: rest) = (unesc rest).map (fun p => ('\x0a' :: p.1, p.2)) := by
  conv_lhs => rw [unesc.eq_def]
  simp

/-- `unesc` at an escaped form feed. -/
theorem unesc_esc_f (rest : List Char) :
    unesc ('\\' :: 'f' :: rest) = (unesc rest).map (fun p => ('\x0c' :: p.1, p.2)) := by
  conv_lhs => rw [unesc.eq_def]
  simp

/-- `unesc` at an escaped carriage return. -/
theorem unesc_esc_r (rest : List Char) :
    unesc ('\\' :: 'r' :: rest) = (unesc rest).map (fun p => ('\x0d' :: p.1, p.2)) := by
  conv_lhs => rw [unesc.eq_def]
  simp

/-- `unesc` at a `\u00XX`-style escape with two leading zeros. -/
theorem unesc_u00 (x y : Char) (vx vy : Nat) (hx : hexVal x = some vx)
    (hy : hexVal y = some vy) (rest : List Char) :
    unesc ('\\' :: 'u' :: '0' :: '0' :: x :: y :: rest) =
      (unesc rest).map (fun p => (Char.ofNat (vx * 16 + vy) :: p.1, p.2)) := by
  have h0 : hexVal '0' = some 0 := by decide
  conv_lhs => rw [unesc.eq_def]
  simp [h0, hx, hy]

/-- `unesc` at an ordinary (unescaped, non-control) character. -/
theorem unesc_ord (c : Char) (rest : List Char) (h1 : c ≠ '"') (h2 : c ≠ '\\')
    (h3 : ¬ c.toNat < 32) :
    unesc (c :: rest) = (unesc rest).map (fun p => (c :: p.1, p.2)) := by
  conv_lhs => rw [unesc.eq_def]
  simp [h1, h2, h3]

/-- `unesc` inverts `escList`: parsing an escaped body followed by the
closing quote recovers the original characters and the tail. -/
theorem unesc_escList (l rest : List Char) :
    unesc (escList l ++ '"' :: rest) = some (l, rest) := by
  induction l with
  | nil => simp [escList, unesc_quote]
  | cons c l ih =>
    by_cases h1 : c = '"'
    · simp [escList, escChar, h1, unesc_esc_quote, ih]
    · by_cases h2 : c = '\\'
      · simp [escList, escChar, h1, h2, unesc_esc_bs, ih]
      · by_cases h3 : c = '\x08'
        · simp [escList, escChar, h1, h2, h3, unesc_esc_b, ih]
        · by_cases h4 : c = '\x09'
          · simp [escList, escChar, h1, h2, h3, h4, unesc_esc_t, ih]
          · by_cases h5 : c = '\x0a'
            · simp [escList, escChar, h1, h2, h3, h4, h5, unesc_esc_n, ih]
            · by_cases h6 : c = '\x0c'
              · simp [escList, escChar, h1, h2, h3, h4, h5, h6, unesc_esc_f, ih]
              · by_cases h7 : c = '\x0d'
                · simp [escList, escChar, h1, h2, h3, h4, h5, h6, h7, unesc_esc_r, ih]
                · by_cases h8 : c.toNat < 32
                  · have hhi : hexVal (hexDigit (c.toNat / 16)) = some (c.toNat / 16) :=
                      hexVal_hexDigit _ (by omega)
                    have hlo : hexVal (hexDigit (c.toNat % 16)) = some (c.toNat % 16) :=
                      hexVal_hexDigit _ (by omega)
                    have hc : Char.ofNat (c.toNat / 16 * 16 + c.toNat % 16) = c := by
                      have harith : c.toNat / 16 * 16 + c.toNat % 16 = c.toNat := by omega
                      rw [harith, Char.ofNat_toNat]
                    simp [escList, escChar, h1, h2, h3, h4, h5, h6, h7, h8,
                      unesc_u00 _ _ _ _ hhi hlo, hc, ih]
                  · simp [escList, escChar, h1, h2, h3, h4, h5, h6, h7, h8,
                      unesc_ord _ _ h1 h2 h8, ih]

/-- Parsing the key `text` followed by the closing quote. -/
theorem unesc_textKey (rest : List Char) :
    unesc ('t' :: 'e' :: 'x' :: 't' :: '"' :: rest) =
      some (['t', 'e', 'x', 't'], rest) := by
  rw [unesc_ord _ _ (by decide) (by decide) (by decide),
    unesc_ord _ _ (by decide) (by decide) (by decide),
    unesc_ord _ _ (by decide) (by decide) (by decide),
    unesc_ord _ _ (by decide) (by decide) (by decide),
    unesc_quote]
  rfl

/-- Parsing the key `error` followed by the closing quote. -/
theorem unesc_errorKey (rest : List Char) :
    unesc ('e' :: 'r' :: 'r' :: 'o' :: 'r' :: '"' :: rest) =
      some (['e', 'r', 'r', 'o', 'r'], rest) := by
  rw [unesc_ord _ _ (by decide) (by decide) (by decide),
    unesc_ord _ _ (by decide) (by decide) (by decide),
    unesc_ord _ _ (by decide) (by decide) (by decide),
    unesc_ord _ _ (by decide) (by decide) (by decide),
    unesc_ord _ _ (by decide) (by decide) (by decide),
    unesc_quote]
  rfl

/-- The serialized success envelope parses as the one-pair object with
key `text` and the original text as value. -/
theorem parseObj1_successJson (t : String) :
    parseObj1 (successJson t) = some ("text", t) := by
  have h2 : unesc (escList t.data ++ '"' :: ['\x7d']) = some (t.data, ['\x7d']) :=
    unesc_escList _ _
  simp [parseObj1, successJson, jsonStringChars, data_mk, unesc_textKey, h2, mk_data]

/-- The serialized error envelope parses as the one-pair object with
key `error` and the original message as value. -/
theorem parseObj1_errorJson (m : String) :
    parseObj1 (errorJson m) = some ("error", m) := by
  have h2 : unesc (escList m.data ++ '"' :: ['\x7d']) = some (m.data, ['\x7d']) :=
    unesc_escList _ _
  simp [parseObj1, errorJson, jsonStringChars, data_mk, unesc_errorKey, h2, mk_data]

/-- Parsing the serialized success envelope recovers the text. -/
theorem parseEnvelope_successJson (t : String) :
    parseEnvelope (successJson t) = some (Sum.inl t) := by
  simp [parseEnvelope, parseObj1_successJson]

/-- Parsing the serialized error envelope recovers the message. -/
theorem parseEnvelope_errorJson (m : String) :
    parseEnvelope (errorJson m) = some (Sum.inr m) := by
  simp [parseEnvelope, parseObj1_errorJson]

/-! ## Claim theorems -/

/-- C1: when both paths exist and both `load_model` and `transcribe`
succeed, the process writes exactly one line to stdout, that line is the
JSON success envelope whose `text` field equals the engine's transcription
result (recovered by parsing), nothing is written to stderr, and the exit
status is 0. -/
theorem C1_success_output (args : Args) (fs : FS) (eng : Engine) (io : StderrIO)
    (r : TranscribeResult)
    (hm : fs.pathExists args.model = true)
    (ha : fs.pathExists args.audio = true)
    (hl : eng.load args.model ⟨true⟩ = .ok ())
    (ht : eng.transcribeFile args.audio (some WhisperInferenceParams.default) = .ok r) :
    mainRun args fs eng io =
      { stdout := [successJson r.text], stderr := [], exitCode := 0 } ∧
    parseEnvelope (successJson r.text) = some (Sum.inl r.text) := by
  refine ⟨?_, parseEnvelope_successJson _⟩
  simp [mainRun, run, runT, hm, ha, hl, ht]

/-- Witness for C1 at a concrete invocation. -/
theorem C1_success_output_witness :
    mainRun ⟨"a.wav", "m.bin"⟩ ⟨fun _ => true⟩
        ⟨fun _ _ => .ok (), fun _ _ => .ok ⟨"hello"⟩⟩ ⟨true, true⟩ =
      { stdout := [successJson "hello"], stderr := [], exitCode := 0 } ∧
    parseEnvelope (successJson "hello") = some (Sum.inl "hello") :=
  C1_success_output ⟨"a.wav", "m.bin"⟩ ⟨fun _ => true⟩
    ⟨fun _ _ => .ok (), fun _ _ => .ok ⟨"hello"⟩⟩ ⟨true, true⟩ ⟨"hello"⟩
    rfl rfl rfl rfl

/-- C2: whenever any stage of `run` fails with message `m`, the process
writes exactly one line to stderr, that line is the JSON error envelope
carrying `m` (recovered by parsing), nothing is written to stdout, and
the exit status is 1. -/
theorem C2_failure_output (args : Args) (fs : FS) (eng : Engine) (io : StderrIO)
    (m : String) (h : run args fs eng = .error m) :
    mainRun args fs eng io =
      { stdout := [], stderr := [errorJson m], exitCode := 1 } ∧
    parseEnvelope (errorJson m) = some (Sum.inr m) :=
  ⟨by simp [mainRun, h], parseEnvelope_errorJson m⟩

/-- Witness for C2 at a concrete failing invocation (missing model). -/
theorem C2_failure_output_witness :
    mainRun ⟨"a.wav", "m.bin"⟩ ⟨fun _ => false⟩
        ⟨fun _ _ => .ok (), fun _ _ => .ok ⟨"hello"⟩⟩ ⟨true, true⟩ =
      { stdout := [], stderr := [errorJson "Model file not found: m.bin"], exitCode := 1 } ∧
    parseEnvelope (errorJson "Model file not found: m.bin") =
      some (Sum.inr "Model file not found: m.bin") :=
  C2_failure_output ⟨"a.wav", "m.bin"⟩ ⟨fun _ => false⟩
    ⟨fun _ _ => .ok (), fun _ _ => .ok ⟨"hello"⟩⟩ ⟨true, true⟩
    "Model file not found: m.bin" rfl

/-- C3: when the model path does not exist, `run` fails with exactly
`"Model file not found: <model path>"` (path in display form), the audio
existence check is never performed, and the engine is never invoked —
for every filesystem with the model missing, in particular when the audio
path is missing as well (the model check precedes the audio check). -/
theorem C3_model_check_first (args : Args) (fs : FS) (eng : Engine)
    (hm : fs.pathExists args.model = false) :
    run args fs eng = .error ("Model file not found: " ++ args.model) ∧
    (runT args fs eng).2.countP Event.isCheckAudio = 0 ∧
    (runT args fs eng).2.countP Event.isLoad = 0 ∧
    (runT args fs eng).2.countP Event.isTrans = 0 := by
  refine ⟨?_, ?_, ?_, ?_⟩ <;>
    simp [run, runT, hm, Event.isCheckAudio, Event.isLoad, Event.isTrans]

/-- Witness for C3 at a concrete invocation where both paths are
missing. -/
theorem C3_model_check_first_witness :
    run ⟨"missing.wav", "nope.bin"⟩ ⟨fun _ => false⟩
        ⟨fun _ _ => .ok (), fun _ _ => .ok ⟨"hello"⟩⟩ =
      .error "Model file not found: nope.bin" ∧
    (runT ⟨"missing.wav", "nope.bin"⟩ ⟨fun _ => false⟩
        ⟨fun _ _ => .ok (), fun _ _ => .ok ⟨"hello"⟩⟩).2.countP Event.isCheckAudio = 0 ∧
    (runT ⟨"missing.wav", "nope.bin"⟩ ⟨fun _ => false⟩
        ⟨fun _ _ => .ok (), fun _ _ => .ok ⟨"hello"⟩⟩).2.countP Event.isLoad = 0 ∧
    (runT ⟨"missing.wav", "nope.bin"⟩ ⟨fun _ => false⟩
        ⟨fun _ _ => .ok (), fun _ _ => .ok ⟨"hello"⟩⟩).2.countP Event.isTrans = 0 :=
  C3_model_check_first ⟨"missing.wav", "nope.bin"⟩ ⟨fun _ => false⟩
    ⟨fun _ _ => .ok (), fun _ _ => .ok ⟨"hello"⟩⟩ rfl

/-- C5: when the model path exists but the audio path does not, `run`
fails with exactly `"Audio file not found: <audio path>"` (path in
display form), the process reports it on stderr as the error envelope
with exit status 1, and the engine is never invoked. -/
theorem C5_audio_missing (args : Args) (fs : FS) (eng : Engine) (io : StderrIO)
    (hm : fs.pathExists args.model = true)
    (ha : fs.pathExists args.audio = false) :
    run args fs eng = .error ("Audio file not found: " ++ args.audio) ∧
    mainRun args fs eng io =
      { stdout := [],
        stderr := [errorJson ("Audio file not found: " ++ args.audio)],
        exitCode := 1 } ∧
    (runT args fs eng).2.countP Event.isLoad = 0 ∧
    (runT args fs eng).2.countP Event.isTrans = 0 := by
  have h1 : run args fs eng = .error ("Audio file not found: " ++ args.audio) := by
    simp [run, runT, hm, ha]
  refine ⟨h1, by simp [mainRun, h1], ?_, ?_⟩ <;>
    simp [runT, hm, ha, Event.isLoad, Event.isTrans]

/-- Witness for C5 at the spec's concrete scenario: only `missing.wav`
is absent. -/
theorem C5_audio_missing_witness :
    run ⟨"missing.wav", "real_model.bin"⟩ ⟨fun p => p == "real_model.bin"⟩
        ⟨fun _ _ => .ok (), fun _ _ => .ok ⟨"hello"⟩⟩ =
      .error "Audio file not found: missing.wav" ∧
    mainRun ⟨"missing.wav", "real_model.bin"⟩ ⟨fun p => p == "real_model.bin"⟩
        ⟨fun _ _ => .ok (), fun _ _ => .ok ⟨"hello"⟩⟩ ⟨true, true⟩ =
      { stdout := [],
        stderr := [errorJson "Audio file not found: missing.wav"],
        exitCode := 1 } ∧
    (runT ⟨"missing.wav", "real_model.bin"⟩ ⟨fun p => p == "real_model.bin"⟩
        ⟨fun _ _ => .ok (), fun _ _ => .ok ⟨"hello"⟩⟩).2.countP Event.isLoad = 0 ∧
    (runT ⟨"missing.wav", "real_model.bin"⟩ ⟨fun p => p == "real_model.bin"⟩
        ⟨fun _ _ => .ok (), fun _ _ => .ok ⟨"hello"⟩⟩).2.countP Event.isTrans = 0 :=
  C5_audio_missing ⟨"missing.wav", "real_model.bin"⟩ ⟨fun p => p == "real_model.bin"⟩
    ⟨fun _ _ => .ok (), fun _ _ => .ok ⟨"hello"⟩⟩ ⟨true, true⟩ rfl rfl



/-- C4 counterexample: the CLI surface does not expose a `--language`
flag. Supplying `--language en` alongside the two declared flags is
rejected by argument parsing, while the same invocation without it is
accepted. -/
theorem C4_no_language_flag_cex :
    parseArgs ["--audio", "a.wav", "--model", "m.bin", "--language", "en"] = none ∧
    parseArgs ["--audio", "a.wav", "--model", "m.bin"] =
      some ⟨"a.wav", "m.bin"⟩ :=
  ⟨rfl, rfl⟩

/-- C4 (amended): the CLI exposes no `--language` flag, and the Whisper
inference parameters passed to `transcribe_file` are always
`Some(WhisperInferenceParams::default())`, whose `language` field is
`None` (auto-detect), for every invocation. -/
theorem C4_language_always_default (args : Args) (fs : FS) (eng : Engine)
    (p : Path) (ip : Option WhisperInferenceParams)
    (h : Event.transcribe p ip ∈ (runT args fs eng).2) :
    ip = some WhisperInferenceParams.default ∧
    WhisperInferenceParams.default.language = none := by
  refine ⟨?_, rfl⟩
  cases hm : fs.pathExists args.model with
  | false => simp [runT, hm] at h
  | true =>
    cases ha : fs.pathExists args.audio with
    | false => simp [runT, hm, ha] at h
    | true =>
      rcases hl : eng.load args.model ⟨true⟩ with e | u
      · simp [runT, hm, ha, hl] at h
      · rcases ht : eng.transcribeFile args.audio (some WhisperInferenceParams.default)
          with e | r
        · simp [runT, hm, ha, hl, ht] at h
          exact h.2
        · simp [runT, hm, ha, hl, ht] at h
          exact h.2

/-- Witness for the amended C4 at a concrete invocation that reaches
transcription. -/
theorem C4_language_always_default_witness :
    (some WhisperInferenceParams.default : Option WhisperInferenceParams) =
      some WhisperInferenceParams.default ∧
    WhisperInferenceParams.default.language = none :=
  C4_language_always_default ⟨"a.wav", "m.bin"⟩ ⟨fun _ => true⟩
    ⟨fun _ _ => .ok (), fun _ _ => .ok ⟨"hello"⟩⟩ "a.wav"
    (some WhisperInferenceParams.default) (by decide)

/-- C6: every `load_model_with_params` call performed by any invocation
passes model parameters with `use_gpu = true`, independent of the
command-line input, the filesystem and the engine. -/
theorem C6_use_gpu_fixed (args : Args) (fs : FS) (eng : Engine)
    (p : Path) (mp : WhisperModelParams)
    (h : Event.loadModel p mp ∈ (runT args fs eng).2) :
    mp = ⟨true⟩ := by
  cases hm : fs.pathExists args.model with
  | false => simp [runT, hm] at h
  | true =>
    cases ha : fs.pathExists args.audio with
    | false => simp [runT, hm, ha] at h
    | true =>
      rcases hl : eng.load args.model ⟨true⟩ with e | u
      · simp [runT, hm, ha, hl] at h
        exact h.2
      · rcases ht : eng.transcribeFile args.audio (some WhisperInferenceParams.default)
          with e | r
        · simp [runT, hm, ha, hl, ht] at h
          exact h.2
        · simp [runT, hm, ha, hl, ht] at h
          exact h.2

/-- Witness for C6 at a concrete invocation that reaches model load. -/
theorem C6_use_gpu_fixed_witness :
    (⟨true⟩ : WhisperModelParams) = ⟨true⟩ :=
  C6_use_gpu_fixed ⟨"a.wav", "m.bin"⟩ ⟨fun _ => true⟩
    ⟨fun _ _ => .ok (), fun _ _ => .ok ⟨"hello"⟩⟩ "m.bin" ⟨true⟩ (by decide)

/-- C7: every invocation emits exactly one envelope — either the success
outcome (one stdout line parsing to the single key `text`, empty stderr,
exit 0) or the failure outcome (one stderr line parsing to the single
key `error`, empty stdout, exit 1), never both and never neither. -/
theorem C7_envelope_exclusive (args : Args) (fs : FS) (eng : Engine) (io : StderrIO) :
    ((∃ t, mainRun args fs eng io =
        { stdout := [successJson t], stderr := [], exitCode := 0 } ∧
        parseEnvelope (successJson t) = some (Sum.inl t)) ∧
      ¬(∃ m, mainRun args fs eng io =
        { stdout := [], stderr := [errorJson m], exitCode := 1 } ∧
        parseEnvelope (errorJson m) = some (Sum.inr m))) ∨
    ((∃ m, mainRun args fs eng io =
        { stdout := [], stderr := [errorJson m], exitCode := 1 } ∧
        parseEnvelope (errorJson m) = some (Sum.inr m)) ∧
      ¬(∃ t, mainRun args fs eng io =
        { stdout := [successJson t], stderr := [], exitCode := 0 } ∧
        parseEnvelope (successJson t) = some (Sum.inl t))) := by
  rcases hr : run args fs eng with m | t
  · right
    refine ⟨⟨m, by simp [mainRun, hr], parseEnvelope_errorJson m⟩, ?_⟩
    rintro ⟨t, ht, -⟩
    simp [mainRun, hr] at ht
  · left
    refine ⟨⟨t, by simp [mainRun, hr], parseEnvelope_successJson t⟩, ?_⟩
    rintro ⟨m, hm, -⟩
    simp [mainRun, hr] at hm

/-- C8: fail-fast — a validation failure means neither `load_model` nor
`transcribe` is ever called, a `load_model` failure means `transcribe`
is never called, and no stage is retried (each engine call happens at
most once). -/
theorem C8_fail_fast (args : Args) (fs : FS) (eng : Engine) :
    ((fs.pathExists args.model = false ∨ fs.pathExists args.audio = false) →
      (runT args fs eng).2.countP Event.isLoad = 0 ∧
      (runT args fs eng).2.countP Event.isTrans = 0) ∧
    (∀ m, eng.load args.model ⟨true⟩ = .error m →
      (runT args fs eng).2.countP Event.isTrans = 0) ∧
    (runT args fs eng).2.countP Event.isLoad ≤ 1 ∧
    (runT args fs eng).2.countP Event.isTrans ≤ 1 := by
  refine ⟨?_, ?_, ?_, ?_⟩
  · rintro (h | h)
    · simp [runT, h, Event.isLoad, Event.isTrans]
    · cases hm : fs.pathExists args.model with
      | false => simp [runT, hm, Event.isLoad, Event.isTrans]
      | true => simp [runT, hm, h, Event.isLoad, Event.isTrans]
  · intro m hl
    cases hm : fs.pathExists args.model with
    | false => simp [runT, hm, Event.isTrans]
    | true =>
      cases ha : fs.pathExists args.audio with
      | false => simp [runT, hm, ha, Event.isTrans]
      | true => simp [runT, hm, ha, hl, Event.isTrans]
  · cases hm : fs.pathExists args.model with
    | false => simp [runT, hm, Event.isLoad]
    | true =>
      cases ha : fs.pathExists args.audio with
      | false => simp [runT, hm, ha, Event.isLoad]
      | true =>
        rcases hl : eng.load args.model ⟨true⟩ with e | u
        · simp [runT, hm, ha, hl, Event.isLoad]
        · rcases ht : eng.transcribeFile args.audio (some WhisperInferenceParams.default)
            with e | r
          · simp [runT, hm, ha, hl, ht, Event.isLoad]
          · simp [runT, hm, ha, hl, ht, Event.isLoad]
  · cases hm : fs.pathExists args.model with
    | false => simp [runT, hm, Event.isTrans]
    | true =>
      cases ha : fs.pathExists args.audio with
      | false => simp [runT, hm, ha, Event.isTrans]
      | true =>
        rcases hl : eng.load args.model ⟨true⟩ with e | u
        · simp [runT, hm, ha, hl, Event.isTrans]
        · rcases ht : eng.transcribeFile args.audio (some WhisperInferenceParams.default)
            with e | r
          · simp [runT, hm, ha, hl, ht, Event.isTrans]
          · simp [runT, hm, ha, hl, ht, Event.isTrans]

/-- Witness for C8 at a concrete invocation where validation fails and
the engine would fail to load. -/
theorem C8_fail_fast_witness :
    ((runT ⟨"a.wav", "m.bin"⟩ ⟨fun _ => false⟩
        ⟨fun _ _ => .error "boom", fun _ _ => .ok ⟨"hello"⟩⟩).2.countP Event.isLoad = 0 ∧
      (runT ⟨"a.wav", "m.bin"⟩ ⟨fun _ => false⟩
        ⟨fun _ _ => .error "boom", fun _ _ => .ok ⟨"hello"⟩⟩).2.countP Event.isTrans = 0) ∧
    (runT ⟨"a.wav", "m.bin"⟩ ⟨fun _ => false⟩
        ⟨fun _ _ => .error "boom", fun _ _ => .ok ⟨"hello"⟩⟩).2.countP Event.isTrans = 0 :=
  ⟨(C8_fail_fast ⟨"a.wav", "m.bin"⟩ ⟨fun _ => false⟩
      ⟨fun _ _ => .error "boom", fun _ _ => .ok ⟨"hello"⟩⟩).1 (Or.inl rfl),
    (C8_fail_fast ⟨"a.wav", "m.bin"⟩ ⟨fun _ => false⟩
      ⟨fun _ _ => .error "boom", fun _ _ => .ok ⟨"hello"⟩⟩).2.1 "boom" rfl⟩

/-- C9: path validation is deterministic — two runs with the same
arguments and the same path-existence answers, on a run where validation
fails, produce identical process outcomes (output bytes and exit
status), regardless of the engine or the stderr I/O outcomes. -/
theorem C9_validation_deterministic (args : Args) (fs fs2 : FS)
    (eng eng2 : Engine) (io io2 : StderrIO)
    (hm : fs.pathExists args.model = fs2.pathExists args.model)
    (ha : fs.pathExists args.audio = fs2.pathExists args.audio)
    (hv : fs.pathExists args.model = false ∨ fs.pathExists args.audio = false) :
    mainRun args fs eng io = mainRun args fs2 eng2 io2 := by
  rcases hv with h | h
  · have h2 : fs2.pathExists args.model = false := by rw [← hm]; exact h
    simp [mainRun, run, runT, h, h2]
  · have h2 : fs2.pathExists args.audio = false := by rw [← ha]; exact h
    cases hmm : fs.pathExists args.model with
    | false =>
      have hmm2 : fs2.pathExists args.model = false := by rw [← hm]; exact hmm
      simp [mainRun, run, runT, hmm, hmm2]
    | true =>
      have hmm2 : fs2.pathExists args.model = true := by rw [← hm]; exact hmm
      simp [mainRun, run, runT, hmm, hmm2, h, h2]

/-- Witness for C9: the same missing-path state with two different
engines and two different stderr I/O outcomes. -/
theorem C9_validation_deterministic_witness :
    mainRun ⟨"a.wav", "m.bin"⟩ ⟨fun _ => false⟩
      ⟨fun _ _ => .ok (), fun _ _ => .ok ⟨"hello"⟩⟩ ⟨true, true⟩ =
    mainRun ⟨"a.wav", "m.bin"⟩ ⟨fun _ => false⟩
      ⟨fun _ _ => .error "boom", fun _ _ => .error "boom"⟩ ⟨false, false⟩ :=
  C9_validation_deterministic ⟨"a.wav", "m.bin"⟩ ⟨fun _ => false⟩ ⟨fun _ => false⟩
    ⟨fun _ _ => .ok (), fun _ _ => .ok ⟨"hello"⟩⟩
    ⟨fun _ _ => .error "boom", fun _ _ => .error "boom"⟩
    ⟨true, true⟩ ⟨false, false⟩ rfl rfl (Or.inl rfl)

/-- C10: on the failure path the results of the stderr write and flush
are discarded — the process outcome is the same whatever those results
are, the exit status is 1, stdout stays empty, and exactly the one error
line is attempted (no alternative report). -/
theorem C10_stderr_results_discarded (args : Args) (fs : FS) (eng : Engine)
    (io io2 : StderrIO) (m : String) (h : run args fs eng = .error m) :
    mainRun args fs eng io = mainRun args fs eng io2 ∧
    mainRun args fs eng io =
      { stdout := [], stderr := [errorJson m], exitCode := 1 } := by
  constructor <;> simp [mainRun, h]

/-- Witness for C10: a failing write and a failing flush still yield the
same outcome as a successful write and flush, with exit status 1. -/
theorem C10_stderr_results_discarded_witness :
    mainRun ⟨"a.wav", "m.bin"⟩ ⟨fun _ => false⟩
      ⟨fun _ _ => .ok (), fun _ _ => .ok ⟨"hello"⟩⟩ ⟨false, false⟩ =
    mainRun ⟨"a.wav", "m.bin"⟩ ⟨fun _ => false⟩
      ⟨fun _ _ => .ok (), fun _ _ => .ok ⟨"hello"⟩⟩ ⟨true, true⟩ ∧
    mainRun ⟨"a.wav", "m.bin"⟩ ⟨fun _ => false⟩
      ⟨fun _ _ => .ok (), fun _ _ => .ok ⟨"hello"⟩⟩ ⟨false, false⟩ =
      { stdout := [],
        stderr := [errorJson "Model file not found: m.bin"],
        exitCode := 1 } :=
  C10_stderr_results_discarded ⟨"a.wav", "m.bin"⟩ ⟨fun _ => false⟩
    ⟨fun _ _ => .ok (), fun _ _ => .ok ⟨"hello"⟩⟩ ⟨false, false⟩ ⟨true, true⟩
    "Model file not found: m.bin" rfl

end TranscribeCli
